import Mathlib

/-!
Verification of the process-supervised audio playback controller
(`src/backend/api/audio_service.py`).

The Python class `AudioService` is shallowly embedded:

* Invocation building (pure string manipulation in `play_text`, `play_intro`,
  `play_file`, `play_announcement`, `play_intro_async`) becomes Lean string
  functions that reproduce the exact command lists the source constructs.
* The stateful supervisor (`current_process`, `stop`, `_run_command`) becomes
  explicit state passing over `Option Nat` (the session slot; `none` = idle),
  with an event list recording what happens at the process-collaborator
  boundary.  Fallible collaborator calls (`Popen`, `terminate`) are modelled by
  oracle parameters saying whether they succeed.
* The embedded PowerShell scripts are themselves source code shipped by the
  repository; their execution by the (black-box) interpreter is modelled by
  translating each script's statements into a list of abstract actions,
  parameterised by oracles for the player's duration-metadata load and
  playback progress.
-/

namespace AudioService

/-- The single-quote delimiter character of PowerShell string literals. -/
def qc : Char := '\x27'

/-- `text.replace("'", "''")` from the source (lines 19, 46, 92, 191-192, 234),
on the character list: every single quote is doubled, all other characters are
kept. -/
def psEscapeL : List Char → List Char
  | [] => []
  | c :: cs => if c = qc then qc :: qc :: psEscapeL cs else c :: psEscapeL cs

/-- `text.replace("'", "''")` on strings. -/
def psEscape (s : String) : String := ⟨psEscapeL s.data⟩

mutual

/-- Modelled from the spec: the decoding rule of the target interpreter for a
single-quoted literal body — each doubled quote collapses back to one quote; a
lone quote terminates the literal (nothing after it belongs to the body). The
interpreter itself is an external collaborator, not part of the repository. -/
def psUnescapeL : List Char → List Char
  | [] => []
  | c :: cs => if c = qc then afterQuote cs else c :: psUnescapeL cs

/-- Decoding state after one quote was read: a second quote yields a literal
quote and decoding resumes; anything else ends the literal body. -/
def afterQuote : List Char → List Char
  | [] => []
  | d :: ds => if d = qc then qc :: psUnescapeL ds else []

end

/-- Decoding rule on strings. -/
def psUnescape (s : String) : String := ⟨psUnescapeL s.data⟩

/-- Lines 22-26: the TTS invocation built by `play_text` (the dash after
`Add-Type` is the en-dash that appears verbatim in the source). -/
def play_text_command (text : String) : List String :=
  ["powershell",
   "-Command",
   "Add-Type –AssemblyName System.Speech; (New-Object System.Speech.Synthesis.SpeechSynthesizer).Speak(\x27"
     ++ psEscape text ++ "\x27)"]

/-- Line 41: the fallback tone script used by `play_intro` when the file is
absent. -/
def fallback_script : String :=
  "[console]::beep(800, 400); Start-Sleep -Milliseconds 100; [console]::beep(600, 600)"

/-- Line 42: the fallback invocation. -/
def fallback_command : List String := ["powershell", "-c", fallback_script]

/-- Lines 53-78, the `play_intro` PowerShell script up to the interpolated
`safe_path` (the Python f-string opens with a newline; braces of the script are
written with character escapes). -/
def intro_script_head : String :=
  "\n        Add-Type -AssemblyName PresentationCore, PresentationFramework;"
  ++ "\n        $p = New-Object System.Windows.Media.MediaPlayer;"
  ++ "\n        $p.Open(\x27"

/-- Lines 53-78, the `play_intro` PowerShell script after the interpolated
`safe_path`. -/
def intro_script_tail : String :=
  "\x27);"
  ++ "\n        "
  ++ "\n        # 1. Wait for Media Open / Duration Load (Async)"
  ++ "\n        $attempts = 20; "
  ++ "\n        while (-not $p.NaturalDuration.HasTimeSpan -and $attempts -gt 0) \x7b"
  ++ "\n            Start-Sleep -Milliseconds 100;"
  ++ "\n            $attempts--;"
  ++ "\n        \x7d"
  ++ "\n        "
  ++ "\n        $p.Play();"
  ++ "\n"
  ++ "\n        # 2. Synchronous Wait"
  ++ "\n        if ($p.NaturalDuration.HasTimeSpan) \x7b"
  ++ "\n            while ($p.Position -lt $p.NaturalDuration.TimeSpan) \x7b"
  ++ "\n                Start-Sleep -Milliseconds 100;"
  ++ "\n            \x7d"
  ++ "\n        \x7d else \x7b"
  ++ "\n            # Fallback if duration never loaded (common with some encodings)"
  ++ "\n            write-host \"Duration unknown, using fallback wait.\""
  ++ "\n            Start-Sleep -Seconds 4;"
  ++ "\n        \x7d"
  ++ "\n        $p.Close();"
  ++ "\n        "

/-- Lines 53-78: the media script of `play_intro` with `safe_path` embedded. -/
def intro_ps_script (file_path : String) : String :=
  intro_script_head ++ psEscape file_path ++ intro_script_tail

/-- Line 81: the synchronous media invocation of `play_intro`. -/
def intro_command (file_path : String) : List String :=
  ["powershell", "-c", intro_ps_script file_path]

/-- Line 96: the `.wav` branch of `play_file`. -/
def sound_player_command (file_path : String) : List String :=
  ["powershell", "-c",
   "(New-Object Media.SoundPlayer \x27" ++ psEscape file_path ++ "\x27).PlaySync()"]

/-- Lines 116-127: the `play_file` MediaPlayer script up to `safe_path`. -/
def play_file_script_head : String :=
  "\n                Add-Type -AssemblyName PresentationCore, PresentationFramework;"
  ++ "\n                $p = New-Object System.Windows.Media.MediaPlayer;"
  ++ "\n                $p.Open(\x27"

/-- Lines 116-127: the `play_file` MediaPlayer script after `safe_path`. -/
def play_file_script_tail : String :=
  "\x27);"
  ++ "\n                $p.Play();"
  ++ "\n                # We need to keep process alive while playing"
  ++ "\n                # But we can\x27t easily detect end in a headless Popen without blocking."
  ++ "\n                # Hack: Just sleep for a long time or until stopped?"
  ++ "\n                # Better: Use a loop that checks \x27stop\x27 signal? No, we kill process to stop."
  ++ "\n                while ($p.Position -lt $p.NaturalDuration.TimeSpan) \x7b Start-Sleep -Milliseconds 500 \x7d"
  ++ "\n                $p.Close();"
  ++ "\n             "

/-- Lines 116-128: the non-`.wav` invocation of `play_file`. -/
def play_file_media_command (file_path : String) : List String :=
  ["powershell", "-c",
   play_file_script_head ++ psEscape file_path ++ play_file_script_tail]

/-- Python `s.lower()` (ASCII range; the paths and extensions compared here are
ASCII). -/
def py_lower (s : String) : String := ⟨s.data.map Char.toLower⟩

/-- Python `s.endswith(suffix)`: the last `suffix.length` characters equal
`suffix`. -/
def py_endswith (s suf : String) : Bool :=
  s.data.drop (s.data.length - suf.data.length) == suf.data

/-- Lines 92-128: the invocation chosen by `play_file` —
`file_path.lower().endswith('.wav')` selects the SoundPlayer branch, anything
else the MediaPlayer script. -/
def play_file_command (file_path : String) : List String :=
  if py_endswith (py_lower file_path) ".wav" then sound_player_command file_path
  else play_file_media_command file_path

/-- Lines 195-225: the `play_announcement` script up to `safe_intro`. -/
def announcement_script_head : String :=
  "\n        Add-Type -AssemblyName PresentationCore, PresentationFramework;"
  ++ "\n        Add-Type -AssemblyName System.Speech;"
  ++ "\n        "
  ++ "\n        # 1. Play Intro"
  ++ "\n        $p = New-Object System.Windows.Media.MediaPlayer;"
  ++ "\n        $p.Open(\x27"

/-- Lines 195-225: the `play_announcement` script between `safe_intro` and
`safe_text`. -/
def announcement_script_mid : String :=
  "\x27);"
  ++ "\n        "
  ++ "\n        # Wait for load"
  ++ "\n        $attempts = 20; "
  ++ "\n        while (-not $p.NaturalDuration.HasTimeSpan -and $attempts -gt 0) \x7b"
  ++ "\n            Start-Sleep -Milliseconds 100;"
  ++ "\n            $attempts--;"
  ++ "\n        \x7d"
  ++ "\n        "
  ++ "\n        $p.Play();"
  ++ "\n        "
  ++ "\n        # Wait for end"
  ++ "\n        if ($p.NaturalDuration.HasTimeSpan) \x7b"
  ++ "\n            while ($p.Position -lt $p.NaturalDuration.TimeSpan) \x7b"
  ++ "\n                Start-Sleep -Milliseconds 100;"
  ++ "\n            \x7d"
  ++ "\n        \x7d else \x7b"
  ++ "\n            Start-Sleep -Seconds 4; # Fallback"
  ++ "\n        \x7d"
  ++ "\n        $p.Close();"
  ++ "\n        "
  ++ "\n        # 2. Speak Text"
  ++ "\n        $synth = New-Object System.Speech.Synthesis.SpeechSynthesizer;"
  ++ "\n        $synth.Speak(\x27"

/-- Lines 195-225: the `play_announcement` script after `safe_text`. -/
def announcement_script_tail : String :=
  "\x27);"
  ++ "\n        "

/-- Lines 195-228: the single composite invocation of `play_announcement`. -/
def announcement_command (intro_path text : String) : List String :=
  ["powershell", "-c",
   announcement_script_head ++ psEscape intro_path ++ announcement_script_mid
     ++ psEscape text ++ announcement_script_tail]

/-- Lines 236-250: the `play_intro_async` script up to `safe_path`. -/
def intro_async_script_head : String :=
  "\n         Add-Type -AssemblyName PresentationCore, PresentationFramework;"
  ++ "\n         $p = New-Object System.Windows.Media.MediaPlayer;"
  ++ "\n         $p.Open(\x27"

/-- Lines 236-250: the `play_intro_async` script after `safe_path`. -/
def intro_async_script_tail : String :=
  "\x27);"
  ++ "\n         "
  ++ "\n         $attempts = 20; "
  ++ "\n         while (-not $p.NaturalDuration.HasTimeSpan -and $attempts -gt 0) \x7b Start-Sleep -Milliseconds 100; $attempts--; \x7d"
  ++ "\n         "
  ++ "\n         $p.Play();"
  ++ "\n         "
  ++ "\n         if ($p.NaturalDuration.HasTimeSpan) \x7b"
  ++ "\n            while ($p.Position -lt $p.NaturalDuration.TimeSpan) \x7b Start-Sleep -Milliseconds 100; \x7d"
  ++ "\n         \x7d else \x7b Start-Sleep -Seconds 4; \x7d"
  ++ "\n         $p.Close();"
  ++ "\n         "

/-- Line 251: the `play_intro_async` invocation. -/
def intro_async_command (file_path : String) : List String :=
  ["powershell", "-c",
   intro_async_script_head ++ psEscape file_path ++ intro_async_script_tail]

/-- Observable events at the process-collaborator boundary. `slotBefore`
records the value of `current_process` at the moment the event happens. -/
inductive Event where
  | terminate (p : Nat)
  | spawned (cmd : List String) (slotBefore : Option Nat) (p : Nat)
  | spawnFailed (cmd : List String) (slotBefore : Option Nat)
  | installed (p : Nat)
  | waited (p : Nat)
  | cleared (p : Nat)
  | ranSync (cmd : List String) (slotBefore : Option Nat)
  deriving DecidableEq

/-- Lines 132-142 (`AudioService.stop`): under the lock, if a session is
tracked, request `terminate()` on it and clear the handle immediately;
otherwise do nothing. `termRaises` says whether the collaborator's
`terminate()` raises; the `try/except: pass` swallows it, so the result does
not depend on it. The function is total: `stop` never returns an error. -/
def stop (termRaises : Bool) (s : Option Nat) : Option Nat × List Event :=
  match s with
  | some p => (none, [Event.terminate p])
  | none => (none, [])

/-- Lines 174-176: the completion-waiter's guarded clear — reset the slot only
if it still holds this waiter's process. -/
def cleanup (slot : Option Nat) (p : Nat) : Option Nat :=
  if slot = some p then none else slot

/-- Lines 144-179 (`AudioService._run_command`'s worker), executed without
interference from other actors: under the lock, `Popen` (`spawnRes = none`
models the spawn raising, `some p` a successful spawn of process `p`) and
install the handle; on failure print and return with the state untouched.
After a successful spawn, release the lock, `communicate()` (drain streams and
wait), then perform the guarded cleanup. -/
def runWorker (spawnRes : Option Nat) (cmd : List String) (s : Option Nat) :
    Option Nat × List Event :=
  match spawnRes with
  | none => (s, [Event.spawnFailed cmd s])
  | some p =>
      (cleanup (some p) p,
       [Event.spawned cmd s p, Event.installed p, Event.waited p, Event.cleared p])

/-- Lines 12-28 (`play_text`): stop, build the TTS invocation, dispatch through
`_run_command`. -/
def play_text_op (tr : Bool) (spawnRes : Option Nat) (text : String)
    (s : Option Nat) : Option Nat × List Event :=
  let r1 := stop tr s
  let r2 := runWorker spawnRes (play_text_command text) r1.1
  (r2.1, r1.2 ++ r2.2)

/-- Lines 30-85 (`play_intro`): stop; if the file is missing (`fileExists` is
the filesystem collaborator's answer), dispatch the fallback tone through
`_run_command` and return; otherwise run the media invocation synchronously
via `subprocess.run`, whose failures the `try/except` swallows. -/
def play_intro_op (tr : Bool) (fileExists : Bool) (spawnRes : Option Nat)
    (file_path : String) (s : Option Nat) : Option Nat × List Event :=
  let r1 := stop tr s
  if fileExists then
    (r1.1, r1.2 ++ [Event.ranSync (intro_command file_path) r1.1])
  else
    let r2 := runWorker spawnRes fallback_command r1.1
    (r2.1, r1.2 ++ r2.2)

/-- Lines 87-130 (`play_file`): stop, choose the invocation by extension,
dispatch through `_run_command`. -/
def play_file_op (tr : Bool) (spawnRes : Option Nat) (file_path : String)
    (s : Option Nat) : Option Nat × List Event :=
  let r1 := stop tr s
  let r2 := runWorker spawnRes (play_file_command file_path) r1.1
  (r2.1, r1.2 ++ r2.2)

/-- Lines 181-228 (`play_announcement`): stop, build the composite script,
dispatch through `_run_command`. -/
def play_announcement_op (tr : Bool) (spawnRes : Option Nat)
    (intro_path text : String) (s : Option Nat) : Option Nat × List Event :=
  let r1 := stop tr s
  let r2 := runWorker spawnRes (announcement_command intro_path text) r1.1
  (r2.1, r1.2 ++ r2.2)

/-- Lines 230-251 (`play_intro_async`): stop, build the async intro script,
dispatch through `_run_command`. -/
def play_intro_async_op (tr : Bool) (spawnRes : Option Nat) (file_path : String)
    (s : Option Nat) : Option Nat × List Event :=
  let r1 := stop tr s
  let r2 := runWorker spawnRes (intro_async_command file_path) r1.1
  (r2.1, r1.2 ++ r2.2)

/-- The atomic lock-protected critical sections that touch `current_process`,
for reasoning about interleavings of several actors (caller threads and
completion-waiter threads). -/
inductive SAct where
  | doStop
  | doSpawnInstall (cmd : List String) (p : Nat)
  | doCleanup (p : Nat)

/-- Effect of one critical section on the slot. -/
def stepAct (s : Option Nat) : SAct → Option Nat
  | SAct.doStop => (stop false s).1
  | SAct.doSpawnInstall _ p => some p
  | SAct.doCleanup p => cleanup s p

/-- Run a sequence of critical sections from a slot value. -/
def execActs : Option Nat → List SAct → Option Nat
  | s, [] => s
  | s, a :: acts => execActs (stepAct s a) acts

/-- Abstract actions of the embedded PowerShell scripts, as executed in order
by the external interpreter; terminating the process truncates the executed
trace to a prefix. -/
inductive PsAct where
  | openMedia (path : String)
  | sleepMs (ms : Nat)
  | play
  | close
  | speak (text : String)
  | logLine (msg : String)
  deriving DecidableEq

/-- The metadata poll loop shared verbatim by the three media-intro scripts:
`$attempts = 20;` then sleep 100 ms while `HasTimeSpan` is false and attempts
remain. `hasTS k` is the black-box player's answer after `k` sleeps; the
returned list is the sleeps the loop performs. -/
def pollEvents (hasTS : Nat → Bool) : Nat → Nat → List PsAct
  | 0, _ => []
  | att + 1, k =>
    if hasTS k then [] else PsAct.sleepMs 100 :: pollEvents hasTS att (k + 1)

/-- Lines 53-78 translated: execution trace of the `play_intro` media script.
`posSteps` is the number of iterations the position-wait loop performs before
the black-box player reports that the position reached the duration. -/
def intro_script_events (hasTS : Nat → Bool) (posSteps : Nat) (path : String) :
    List PsAct :=
  let polls := pollEvents hasTS 20 0
  [PsAct.openMedia path] ++ polls ++ [PsAct.play]
    ++ (if hasTS polls.length then List.replicate posSteps (PsAct.sleepMs 100)
        else [PsAct.logLine "Duration unknown, using fallback wait.",
              PsAct.sleepMs 4000])
    ++ [PsAct.close]

/-- Lines 236-250 translated: trace of the `play_intro_async` script. -/
def intro_async_script_events (hasTS : Nat → Bool) (posSteps : Nat)
    (path : String) : List PsAct :=
  let polls := pollEvents hasTS 20 0
  [PsAct.openMedia path] ++ polls ++ [PsAct.play]
    ++ (if hasTS polls.length then List.replicate posSteps (PsAct.sleepMs 100)
        else [PsAct.sleepMs 4000])
    ++ [PsAct.close]

/-- Lines 195-225 translated: trace of the `play_announcement` script — the
intro part, then `$synth.Speak`. -/
def announcement_script_events (hasTS : Nat → Bool) (posSteps : Nat)
    (intro_path text : String) : List PsAct :=
  let polls := pollEvents hasTS 20 0
  [PsAct.openMedia intro_path] ++ polls ++ [PsAct.play]
    ++ (if hasTS polls.length then List.replicate posSteps (PsAct.sleepMs 100)
        else [PsAct.sleepMs 4000])
    ++ [PsAct.close]
    ++ [PsAct.speak text]

/-- Lines 116-127 translated: trace of the `play_file` MediaPlayer script (no
metadata poll, 500 ms position polling, no iteration bound). -/
def play_file_media_events (posSteps : Nat) (path : String) : List PsAct :=
  [PsAct.openMedia path, PsAct.play]
    ++ List.replicate posSteps (PsAct.sleepMs 500) ++ [PsAct.close]

/-- Total milliseconds slept in a trace segment. -/
def sleepSum : List PsAct → Nat
  | [] => 0
  | PsAct.sleepMs n :: es => n + sleepSum es
  | _ :: es => sleepSum es

/-- The segment of a script trace before playback starts (`$p.Play()`). -/
def prePlay : List PsAct → List PsAct
  | [] => []
  | PsAct.play :: _ => []
  | e :: es => e :: prePlay es

/-- The segment of a script trace after playback starts. -/
def afterPlay : List PsAct → List PsAct
  | [] => []
  | PsAct.play :: es => es
  | _ :: es => afterPlay es

/-- The segment of a script trace before the media is closed. -/
def untilClose : List PsAct → List PsAct
  | [] => []
  | PsAct.close :: _ => []
  | e :: es => e :: untilClose es

/-- Number of spawned external processes recorded in a supervisor trace. -/
def spawnCount : List Event → Nat
  | [] => 0
  | Event.spawned _ _ _ :: es => spawnCount es + 1
  | _ :: es => spawnCount es

/-- The slot values observed at each point where an external process is
launched (`Popen` attempts and `subprocess.run`). -/
def spawnSlots : List Event → List (Option Nat)
  | [] => []
  | Event.spawned _ sb _ :: es => sb :: spawnSlots es
  | Event.spawnFailed _ sb :: es => sb :: spawnSlots es
  | Event.ranSync _ sb :: es => sb :: spawnSlots es
  | _ :: es => spawnSlots es

/-- Denotation of the fallback tone script's statements. -/
inductive ToneAct where
  | beep (freqHz durMs : Nat)
  | pause (ms : Nat)
  deriving DecidableEq

/-- Rendering of one tone statement back to PowerShell concrete syntax. -/
def renderTone : ToneAct → String
  | ToneAct.beep f d => "[console]::beep(" ++ toString f ++ ", " ++ toString d ++ ")"
  | ToneAct.pause m => "Start-Sleep -Milliseconds " ++ toString m

/-- Rendering of a tone statement sequence. -/
def renderTones (ts : List ToneAct) : String :=
  String.intercalate "; " (ts.map renderTone)

theorem psEscapeL_flat (l : List Char) :
    psEscapeL l = (l.map (fun c => if c = qc then [qc, qc] else [c])).flatten := by
  induction l with
  | nil => rfl
  | cons c cs ih =>
    by_cases h : c = qc <;> simp [psEscapeL, h, ih]

theorem psUnescapeL_psEscapeL (l : List Char) : psUnescapeL (psEscapeL l) = l := by
  induction l with
  | nil => rfl
  | cons c cs ih =>
    by_cases h : c = qc
    · subst h; simp [psEscapeL, psUnescapeL, afterQuote, ih]
    · simp [psEscapeL, psUnescapeL, h, ih]

theorem psUnescape_psEscape (s : String) : psUnescape (psEscape s) = s := by
  cases s with
  | mk data => simp [psEscape, psUnescape, psUnescapeL_psEscapeL]

theorem pollEvents_length_le (hasTS : Nat → Bool) :
    ∀ att k, (pollEvents hasTS att k).length ≤ att := by
  intro att
  induction att with
  | zero => intro k; exact le_rfl
  | succ n ih =>
    intro k
    simp only [pollEvents]
    by_cases h : hasTS k <;> simp [h]
    exact ih (k + 1)

theorem pollEvents_mem (hasTS : Nat → Bool) :
    ∀ att k a, a ∈ pollEvents hasTS att k → a = PsAct.sleepMs 100 := by
  intro att
  induction att with
  | zero => intro k a h; exact absurd h (List.not_mem_nil a)
  | succ n ih =>
    intro k a h
    simp only [pollEvents] at h
    by_cases hk : hasTS k
    · simp [hk] at h
    · simp [hk] at h
      rcases h with h | h
      · exact h
      · exact ih _ _ h

theorem pollEvents_of_false (hasTS : Nat → Bool) :
    ∀ att k, (∀ j, k ≤ j → j < k + att → hasTS j = false) →
      pollEvents hasTS att k = List.replicate att (PsAct.sleepMs 100) := by
  intro att
  induction att with
  | zero => intro k _; rfl
  | succ n ih =>
    intro k h
    have hk : hasTS k = false := h k le_rfl (by omega)
    rw [List.replicate_succ]
    simp [pollEvents, hk]
    exact ih (k + 1) (fun j h1 h2 => h j (by omega) (by omega))

theorem sleepSum_replicate (n k : Nat) :
    sleepSum (List.replicate n (PsAct.sleepMs k)) = n * k := by
  induction n with
  | zero => simp [sleepSum]
  | succ m ih =>
    rw [List.replicate_succ]
    simp [sleepSum, ih]
    ring

theorem sleepSum_le_of_all100 (l : List PsAct)
    (h : ∀ a ∈ l, a = PsAct.sleepMs 100) : sleepSum l = l.length * 100 := by
  induction l with
  | nil => rfl
  | cons a as ih =>
    have ha := h a (List.mem_cons_self a as)
    subst ha
    simp [sleepSum, ih (fun x hx => h x (List.mem_cons_of_mem _ hx))]
    ring

theorem prePlay_append (xs ys : List PsAct) (h : PsAct.play ∉ xs) :
    prePlay (xs ++ PsAct.play :: ys) = xs := by
  induction xs with
  | nil => rfl
  | cons a as ih =>
    rw [List.mem_cons, not_or] at h
    obtain ⟨h1, h2⟩ := h
    cases a with
    | play => exact absurd rfl h1
    | openMedia p => simpa [prePlay] using ih h2
    | sleepMs n => simpa [prePlay] using ih h2
    | close => simpa [prePlay] using ih h2
    | speak t => simpa [prePlay] using ih h2
    | logLine m => simpa [prePlay] using ih h2

theorem afterPlay_append (xs ys : List PsAct) (h : PsAct.play ∉ xs) :
    afterPlay (xs ++ PsAct.play :: ys) = ys := by
  induction xs with
  | nil => rfl
  | cons a as ih =>
    rw [List.mem_cons, not_or] at h
    obtain ⟨h1, h2⟩ := h
    cases a with
    | play => exact absurd rfl h1
    | openMedia p => simpa [afterPlay] using ih h2
    | sleepMs n => simpa [afterPlay] using ih h2
    | close => simpa [afterPlay] using ih h2
    | speak t => simpa [afterPlay] using ih h2
    | logLine m => simpa [afterPlay] using ih h2

theorem untilClose_append (xs ys : List PsAct) (h : PsAct.close ∉ xs) :
    untilClose (xs ++ PsAct.close :: ys) = xs := by
  induction xs with
  | nil => rfl
  | cons a as ih =>
    rw [List.mem_cons, not_or] at h
    obtain ⟨h1, h2⟩ := h
    cases a with
    | close => exact absurd rfl h1
    | openMedia p => simpa [untilClose] using ih h2
    | sleepMs n => simpa [untilClose] using ih h2
    | play => simpa [untilClose] using ih h2
    | speak t => simpa [untilClose] using ih h2
    | logLine m => simpa [untilClose] using ih h2

theorem play_not_mem_prefix (hasTS : Nat → Bool) (path : String) :
    PsAct.play ∉ [PsAct.openMedia path] ++ pollEvents hasTS 20 0 := by
  intro h
  rcases List.mem_append.mp h with h | h
  · simp at h
  · exact absurd (pollEvents_mem hasTS 20 0 _ h) (by simp)

theorem intro_ps_script_head_char (p : String) :
    (intro_ps_script p).data.head? = some '\x0a' := rfl

theorem fallback_script_head_char : fallback_script.data.head? = some '[' := rfl

theorem play_file_script_head_char (p : String) :
    ((play_file_script_head ++ psEscape p ++ play_file_script_tail)).data.head? =
      some '\x0a' := rfl

theorem sound_player_script_head_char (p : String) :
    ("(New-Object Media.SoundPlayer \x27" ++ psEscape p
      ++ "\x27).PlaySync()").data.head? = some '(' := rfl

theorem prePlay_shape (path : String) (polls rest : List PsAct)
    (hp : ∀ a ∈ polls, a = PsAct.sleepMs 100) :
    prePlay ([PsAct.openMedia path] ++ polls ++ [PsAct.play] ++ rest) =
      PsAct.openMedia path :: polls := by
  have h : PsAct.play ∉ [PsAct.openMedia path] ++ polls := by
    intro hmem
    rcases List.mem_append.mp hmem with h | h
    · simp at h
    · exact absurd (hp _ h) (by simp)
  have e : [PsAct.openMedia path] ++ polls ++ [PsAct.play] ++ rest =
      ([PsAct.openMedia path] ++ polls) ++ PsAct.play :: rest := by
    simp [List.append_assoc]
  rw [e, prePlay_append _ _ h]
  simp

theorem afterPlay_shape (path : String) (polls rest : List PsAct)
    (hp : ∀ a ∈ polls, a = PsAct.sleepMs 100) :
    afterPlay ([PsAct.openMedia path] ++ polls ++ [PsAct.play] ++ rest) = rest := by
  have h : PsAct.play ∉ [PsAct.openMedia path] ++ polls := by
    intro hmem
    rcases List.mem_append.mp hmem with h | h
    · simp at h
    · exact absurd (hp _ h) (by simp)
  have e : [PsAct.openMedia path] ++ polls ++ [PsAct.play] ++ rest =
      ([PsAct.openMedia path] ++ polls) ++ PsAct.play :: rest := by
    simp [List.append_assoc]
  rw [e, afterPlay_append _ _ h]

theorem intro_script_events_shape (hasTS : Nat → Bool) (posSteps : Nat)
    (path : String) :
    intro_script_events hasTS posSteps path =
      [PsAct.openMedia path] ++ pollEvents hasTS 20 0 ++ [PsAct.play] ++
        ((if hasTS (pollEvents hasTS 20 0).length then
            List.replicate posSteps (PsAct.sleepMs 100)
          else [PsAct.logLine "Duration unknown, using fallback wait.",
                PsAct.sleepMs 4000]) ++ [PsAct.close]) := by
  simp [intro_script_events, List.append_assoc]

theorem intro_async_script_events_shape (hasTS : Nat → Bool) (posSteps : Nat)
    (path : String) :
    intro_async_script_events hasTS posSteps path =
      [PsAct.openMedia path] ++ pollEvents hasTS 20 0 ++ [PsAct.play] ++
        ((if hasTS (pollEvents hasTS 20 0).length then
            List.replicate posSteps (PsAct.sleepMs 100)
          else [PsAct.sleepMs 4000]) ++ [PsAct.close]) := by
  simp [intro_async_script_events, List.append_assoc]

theorem announcement_script_events_shape (hasTS : Nat → Bool) (posSteps : Nat)
    (intro_path text : String) :
    announcement_script_events hasTS posSteps intro_path text =
      [PsAct.openMedia intro_path] ++ pollEvents hasTS 20 0 ++ [PsAct.play] ++
        ((if hasTS (pollEvents hasTS 20 0).length then
            List.replicate posSteps (PsAct.sleepMs 100)
          else [PsAct.sleepMs 4000]) ++ PsAct.close :: [PsAct.speak text]) := by
  simp [announcement_script_events, List.append_assoc]

theorem speak_not_mem_async (hasTS : Nat → Bool) (posSteps : Nat)
    (path t : String) :
    PsAct.speak t ∉ intro_async_script_events hasTS posSteps path := by
  intro h
  by_cases hts : hasTS (pollEvents hasTS 20 0).length = true
  · simp [intro_async_script_events, hts, List.mem_replicate] at h
    exact absurd (pollEvents_mem hasTS 20 0 _ h) (by simp)
  · rw [Bool.not_eq_true] at hts
    simp [intro_async_script_events, hts] at h
    exact absurd (pollEvents_mem hasTS 20 0 _ h) (by simp)

/-- Claim C1: every public playback operation first performs the Supervisor's
`stop()` — when a session was active, the termination request for it is the
very first observable event — and only then launches the new external process;
every launch (worker `Popen` attempt or synchronous `subprocess.run`) observes
an empty session slot. -/
theorem playback_ops_stop_before_spawn (tr fe : Bool) (spawnRes : Option Nat)
    (text path intro_path : String) (s : Option Nat) (q : Nat) :
    (s = some q →
      (play_text_op tr spawnRes text s).2.head? = some (Event.terminate q) ∧
      (play_intro_op tr fe spawnRes path s).2.head? = some (Event.terminate q) ∧
      (play_intro_async_op tr spawnRes path s).2.head? = some (Event.terminate q) ∧
      (play_file_op tr spawnRes path s).2.head? = some (Event.terminate q) ∧
      (play_announcement_op tr spawnRes intro_path text s).2.head? =
        some (Event.terminate q)) ∧
    (spawnSlots (play_text_op tr spawnRes text s).2 = [none] ∧
      spawnSlots (play_intro_op tr fe spawnRes path s).2 = [none] ∧
      spawnSlots (play_intro_async_op tr spawnRes path s).2 = [none] ∧
      spawnSlots (play_file_op tr spawnRes path s).2 = [none] ∧
      spawnSlots (play_announcement_op tr spawnRes intro_path text s).2 = [none]) := by
  cases s <;> cases spawnRes <;> cases fe <;>
    simp [play_text_op, play_intro_op, play_intro_async_op, play_file_op,
      play_announcement_op, stop, runWorker, cleanup, spawnSlots]

/-- Witness for `playback_ops_stop_before_spawn` with an active prior session. -/
theorem playback_ops_stop_before_spawn_witness :
    ((play_text_op false (some 5) "hello" (some 3)).2.head? =
        some (Event.terminate 3) ∧
      (play_intro_op false true (some 5) "f.mp3" (some 3)).2.head? =
        some (Event.terminate 3) ∧
      (play_intro_async_op false (some 5) "f.mp3" (some 3)).2.head? =
        some (Event.terminate 3) ∧
      (play_file_op false (some 5) "f.mp3" (some 3)).2.head? =
        some (Event.terminate 3) ∧
      (play_announcement_op false (some 5) "i.mp3" "hello" (some 3)).2.head? =
        some (Event.terminate 3)) ∧
    (spawnSlots (play_text_op false (some 5) "hello" (some 3)).2 = [none] ∧
      spawnSlots (play_intro_op false true (some 5) "f.mp3" (some 3)).2 = [none] ∧
      spawnSlots (play_intro_async_op false (some 5) "f.mp3" (some 3)).2 = [none] ∧
      spawnSlots (play_file_op false (some 5) "f.mp3" (some 3)).2 = [none] ∧
      spawnSlots (play_announcement_op false (some 5) "i.mp3" "hello" (some 3)).2 =
        [none]) := by
  have h := playback_ops_stop_before_spawn false true (some 5)
    "hello" "f.mp3" "i.mp3" (some 3) 3
  exact ⟨h.1 rfl, h.2⟩

/-- Claim C2: the completion-waiter's cleanup clears the slot only if it still
holds this waiter's process; a slot holding a different process is left
unchanged, and a slot holding the waiter's own process is set to `none`. In
particular, after `start(A)` then `start(B)` back-to-back, A's waiter leaves
B's handle in place. -/
theorem waiter_cleanup_stale_guard :
    (∀ slot (p : Nat), slot ≠ some p → cleanup slot p = slot) ∧
    (∀ p : Nat, cleanup (some p) p = none) ∧
    (∀ a b : Nat, ∀ cA cB : List String, a ≠ b →
      execActs none
        [SAct.doSpawnInstall cA a, SAct.doSpawnInstall cB b, SAct.doCleanup a] =
        some b) := by
  refine ⟨?_, ?_, ?_⟩
  · intro slot p h; simp [cleanup, h]
  · intro p; simp [cleanup]
  · intro a b cA cB h
    simp [execActs, stepAct, cleanup, Ne.symm h]

/-- Witness for `waiter_cleanup_stale_guard`: process 1's waiter does not clear
process 2's handle; it does clear its own. -/
theorem waiter_cleanup_stale_guard_witness :
    cleanup (some 2) 1 = some 2 ∧
    cleanup (some 1) 1 = none ∧
    execActs none
      [SAct.doSpawnInstall ["a"] 1, SAct.doSpawnInstall ["b"] 2, SAct.doCleanup 1] =
      some 2 := by
  have h := waiter_cleanup_stale_guard
  exact ⟨h.1 (some 2) 1 (by decide), h.2.1 1, h.2.2 1 2 ["a"] ["b"] (by decide)⟩

/-- Claim C3: `stop()` never raises (a total function whose result does not
depend on whether the collaborator's `terminate()` raises) and always leaves
the current-session handle `none` on return; with an active session it emits
exactly one termination request, for that process, without waiting; with no
session it is a no-op that sends no termination request. -/
theorem stop_terminate_contract (tr : Bool) (s : Option Nat) (p : Nat) :
    (stop tr s).1 = none ∧
    (s = some p → (stop tr s).2 = [Event.terminate p]) ∧
    (s = none → stop tr s = (none, [])) ∧
    stop tr s = stop (!tr) s := by
  cases s <;> simp [stop]

/-- Witness for `stop_terminate_contract` at an active and at an idle state. -/
theorem stop_terminate_contract_witness :
    (stop true (some 4)).1 = none ∧
    (stop true (some 4)).2 = [Event.terminate 4] ∧
    stop true (none : Option Nat) = (none, []) ∧
    stop true (some 4) = stop false (some 4) := by
  have h := stop_terminate_contract true (some 4) 4
  have h0 := stop_terminate_contract true (none : Option Nat) 4
  exact ⟨h.1, h.2.1 rfl, h0.2.2.1 rfl, h.2.2.2⟩

/-- Claim C9: when `Popen` raises inside `_run_command`'s worker, the failure
is only logged (the spawn-failure record carries the command and the untouched
slot): the worker returns without waiting, without installing a handle, and
with the session slot exactly as it was — in particular still `none` when it
was `none`. -/
theorem spawn_failure_recovery (cmd : List String) (s : Option Nat) :
    (runWorker none cmd s).1 = s ∧
    Event.spawnFailed cmd s ∈ (runWorker none cmd s).2 ∧
    (∀ p, Event.waited p ∉ (runWorker none cmd s).2) ∧
    (∀ p, Event.installed p ∉ (runWorker none cmd s).2) ∧
    (s = none → (runWorker none cmd s).1 = none) := by
  simp [runWorker]

/-- Witness for `spawn_failure_recovery` on an idle controller. -/
theorem spawn_failure_recovery_witness :
    (runWorker none ["powershell"] none).1 = none ∧
    Event.spawnFailed ["powershell"] none ∈ (runWorker none ["powershell"] none).2 ∧
    Event.waited 7 ∉ (runWorker none ["powershell"] none).2 ∧
    Event.installed 7 ∉ (runWorker none ["powershell"] none).2 := by
  have h := spawn_failure_recovery ["powershell"] none
  exact ⟨h.1, h.2.1, h.2.2.1 7, h.2.2.2.1 7⟩

/-- Claim C10: with an existing intro file, `play_intro` runs its media
invocation synchronously and never writes the session slot: apart from the
initial `stop()` (after which the slot is `none`), the slot is untouched — the
synchronous process is launched with the slot empty and never installed, so a
`stop()` issued during that playback finds no session and sends no
termination request. -/
theorem sync_intro_untracked (tr : Bool) (spawnRes : Option Nat) (path : String)
    (s : Option Nat) :
    (play_intro_op tr true spawnRes path s).1 = none ∧
    (∀ p, Event.installed p ∉ (play_intro_op tr true spawnRes path s).2) ∧
    Event.ranSync (intro_command path) none ∈ (play_intro_op tr true spawnRes path s).2 ∧
    stop tr none = (none, []) := by
  cases s <;> simp [play_intro_op, stop]

/-- Witness for `sync_intro_untracked` starting from an active session. -/
theorem sync_intro_untracked_witness :
    (play_intro_op false true (some 9) "c.mp3" (some 2)).1 = none ∧
    Event.installed 9 ∉ (play_intro_op false true (some 9) "c.mp3" (some 2)).2 ∧
    Event.ranSync (intro_command "c.mp3") none ∈
      (play_intro_op false true (some 9) "c.mp3" (some 2)).2 ∧
    stop false none = (none, []) := by
  have h := sync_intro_untracked false (some 9) "c.mp3" (some 2)
  exact ⟨h.1, h.2.1 9, h.2.2.1, h.2.2.2⟩

/-- Claim C5: the speech invocation built by `play_text` embeds the text with
each single quote doubled (`text.replace("'", "''")`), and decoding the
embedded string by the target interpreter's single-quote rule reproduces the
original text exactly — a round trip, checked in particular on `it's fine`. -/
theorem speak_escaping_round_trip (t : String) :
    psEscapeL t.data =
      (t.data.map (fun c => if c = qc then [qc, qc] else [c])).flatten ∧
    psUnescape (psEscape t) = t ∧
    (play_text_command t).get? 2 =
      some ("Add-Type –AssemblyName System.Speech; (New-Object System.Speech.Synthesis.SpeechSynthesizer).Speak(\x27"
        ++ psEscape t ++ "\x27)") ∧
    psEscape "it\x27s fine" = "it\x27\x27s fine" ∧
    psUnescape "it\x27\x27s fine" = "it\x27s fine" :=
  ⟨psEscapeL_flat t.data, psUnescape_psEscape t, rfl, rfl, rfl⟩

/-- Claim C6: when the filesystem collaborator reports the intro file absent,
`play_intro` launches only the fixed two-tone fallback invocation — a beep at
800 Hz for 400 ms, a 100 ms pause, then a beep at 600 Hz for 600 ms — and never
the media-open invocation (no synchronous media run occurs, every launch
carries the fallback command, and the fallback command differs from every
media-open command); the operation is total, so nothing is raised. -/
theorem intro_missing_fallback_tone (tr : Bool) (spawnRes : Option Nat)
    (path : String) (s : Option Nat) :
    (∀ cmd sb p, Event.spawned cmd sb p ∈ (play_intro_op tr false spawnRes path s).2 →
      cmd = fallback_command) ∧
    (∀ cmd sb, Event.spawnFailed cmd sb ∈ (play_intro_op tr false spawnRes path s).2 →
      cmd = fallback_command) ∧
    (∀ cmd sb, Event.ranSync cmd sb ∉ (play_intro_op tr false spawnRes path s).2) ∧
    (∀ q, fallback_command ≠ intro_command q) ∧
    fallback_script =
      renderTones [ToneAct.beep 800 400, ToneAct.pause 100, ToneAct.beep 600 600] := by
  refine ⟨?_, ?_, ?_, ?_, rfl⟩
  · intro cmd sb p h
    cases s <;> cases spawnRes <;>
      simp [play_intro_op, stop, runWorker, cleanup] at h <;>
      exact h.1
  · intro cmd sb h
    cases s <;> cases spawnRes <;>
      simp [play_intro_op, stop, runWorker, cleanup] at h <;>
      exact h.1
  · intro cmd sb
    cases s <;> cases spawnRes <;>
      simp [play_intro_op, stop, runWorker, cleanup]
  · intro q h
    have h3 : fallback_script = intro_ps_script q := by
      simpa [fallback_command, intro_command] using h
    have h4 : fallback_script.data.head? = (intro_ps_script q).data.head? := by
      rw [h3]
    rw [fallback_script_head_char, intro_ps_script_head_char] at h4
    exact absurd h4 (by decide)

/-- Witness for `intro_missing_fallback_tone`, discharging its membership and
inequality hypotheses at a concrete missing file. -/
theorem intro_missing_fallback_tone_witness :
    fallback_command = fallback_command ∧
    Event.ranSync (intro_command "missing.mp3") none ∉
      (play_intro_op false false (some 5) "missing.mp3" none).2 ∧
    fallback_command ≠ intro_command "missing.mp3" ∧
    fallback_script =
      renderTones [ToneAct.beep 800 400, ToneAct.pause 100, ToneAct.beep 600 600] := by
  have h := intro_missing_fallback_tone false (some 5) "missing.mp3" none
  exact ⟨h.1 fallback_command none 5
      (by simp [play_intro_op, stop, runWorker, cleanup]),
    h.2.2.1 (intro_command "missing.mp3") none,
    h.2.2.2.1 "missing.mp3", h.2.2.2.2⟩

/-- Claim C7: each of the three media-intro scripts (`play_intro`,
`play_intro_async`, `play_announcement`) waits before `$p.Play()` only for the
open action and the metadata poll — at most 20 polls of 100 ms each, hence at
most 2000 ms — and when the duration is still unknown after the whole poll
budget, the post-play wait is the fixed 4000 ms sleep, not a position wait. -/
theorem media_scripts_poll_bound (hasTS : Nat → Bool) (posSteps : Nat)
    (path text : String) :
    prePlay (intro_script_events hasTS posSteps path) =
      PsAct.openMedia path :: pollEvents hasTS 20 0 ∧
    prePlay (intro_async_script_events hasTS posSteps path) =
      PsAct.openMedia path :: pollEvents hasTS 20 0 ∧
    prePlay (announcement_script_events hasTS posSteps path text) =
      PsAct.openMedia path :: pollEvents hasTS 20 0 ∧
    (pollEvents hasTS 20 0).length ≤ 20 ∧
    sleepSum (pollEvents hasTS 20 0) ≤ 2000 ∧
    ((∀ j, j ≤ 20 → hasTS j = false) →
      untilClose (afterPlay (intro_script_events hasTS posSteps path)) =
        [PsAct.logLine "Duration unknown, using fallback wait.",
         PsAct.sleepMs 4000] ∧
      untilClose (afterPlay (intro_async_script_events hasTS posSteps path)) =
        [PsAct.sleepMs 4000] ∧
      untilClose (afterPlay (announcement_script_events hasTS posSteps path text)) =
        [PsAct.sleepMs 4000]) := by
  have hp : ∀ a ∈ pollEvents hasTS 20 0, a = PsAct.sleepMs 100 :=
    fun a ha => pollEvents_mem hasTS 20 0 a ha
  have hb := pollEvents_length_le hasTS 20 0
  refine ⟨?_, ?_, ?_, hb, ?_, ?_⟩
  · rw [intro_script_events_shape, prePlay_shape _ _ _ hp]
  · rw [intro_async_script_events_shape, prePlay_shape _ _ _ hp]
  · rw [announcement_script_events_shape, prePlay_shape _ _ _ hp]
  · rw [sleepSum_le_of_all100 _ hp]
    omega
  · intro h20
    have hTS : hasTS (pollEvents hasTS 20 0).length = false := h20 _ hb
    refine ⟨?_, ?_, ?_⟩
    · rw [intro_script_events_shape, afterPlay_shape _ _ _ hp, hTS]
      rfl
    · rw [intro_async_script_events_shape, afterPlay_shape _ _ _ hp, hTS]
      rfl
    · rw [announcement_script_events_shape, afterPlay_shape _ _ _ hp, hTS]
      rfl

/-- Witness for `media_scripts_poll_bound` with a player that never reports
duration metadata. -/
theorem media_scripts_poll_bound_witness :
    prePlay (intro_script_events (fun _ => false) 0 "x.mp3") =
      PsAct.openMedia "x.mp3" :: pollEvents (fun _ => false) 20 0 ∧
    (pollEvents (fun _ => false) 20 0).length ≤ 20 ∧
    sleepSum (pollEvents (fun _ => false) 20 0) ≤ 2000 ∧
    untilClose (afterPlay (intro_script_events (fun _ => false) 0 "x.mp3")) =
      [PsAct.logLine "Duration unknown, using fallback wait.",
       PsAct.sleepMs 4000] ∧
    untilClose (afterPlay (intro_async_script_events (fun _ => false) 0 "x.mp3")) =
      [PsAct.sleepMs 4000] ∧
    untilClose (afterPlay (announcement_script_events (fun _ => false) 0 "x.mp3" "T")) =
      [PsAct.sleepMs 4000] := by
  have h := media_scripts_poll_bound (fun _ => false) 0 "x.mp3" "T"
  have hf := h.2.2.2.2.2 (fun j hj => rfl)
  exact ⟨h.1, h.2.2.2.1, h.2.2.2.2.1, hf.1, hf.2.1, hf.2.2⟩

/-- Claim C8 as stated is false: `play_file("A.WAV")` builds the SoundPlayer
invocation although `"A.WAV"` does not end with the literal extension `.wav`
(the source lowercases the path before the check). -/
theorem play_file_wav_claim_counterexample :
    ¬ (play_file_command "A.WAV" = sound_player_command "A.WAV" ↔
        py_endswith "A.WAV" ".wav" = true) := by
  intro h
  have h1 : py_endswith "A.WAV" ".wav" = true := h.mp (by rfl)
  exact absurd h1 (by decide)

/-- Claim C8 (amended): `play_file` builds the simple synchronous SoundPlayer
invocation exactly when the lowercased path ends with the one recognized
extension `.wav` (case-insensitive match), and for every other extension the
duration-poll MediaPlayer invocation, whose position loop has no iteration
bound; both are dispatched through the fire-and-forget start path (no
synchronous run ever occurs). -/
theorem play_file_extension_choice (tr : Bool) (spawnRes : Option Nat)
    (file_path : String) (s : Option Nat) (n : Nat) :
    (play_file_command file_path = sound_player_command file_path ↔
      py_endswith (py_lower file_path) ".wav" = true) ∧
    (py_endswith (py_lower file_path) ".wav" = false →
      play_file_command file_path = play_file_media_command file_path) ∧
    (play_file_media_events n file_path).length = n + 3 ∧
    (∀ cmd sb, Event.ranSync cmd sb ∉ (play_file_op tr spawnRes file_path s).2) := by
  have hne : play_file_media_command file_path ≠ sound_player_command file_path := by
    intro h
    have h3 : play_file_script_head ++ psEscape file_path ++ play_file_script_tail =
        "(New-Object Media.SoundPlayer \x27" ++ psEscape file_path
          ++ "\x27).PlaySync()" := by
      simpa [play_file_media_command, sound_player_command] using h
    have h4 : (play_file_script_head ++ psEscape file_path
        ++ play_file_script_tail).data.head? =
        ("(New-Object Media.SoundPlayer \x27" ++ psEscape file_path
          ++ "\x27).PlaySync()").data.head? := by
      rw [h3]
    rw [play_file_script_head_char, sound_player_script_head_char] at h4
    exact absurd h4 (by decide)
  refine ⟨?_, ?_, ?_, ?_⟩
  · constructor
    · intro h
      by_cases hw : py_endswith (py_lower file_path) ".wav"
      · exact hw
      · rw [Bool.not_eq_true] at hw
        rw [play_file_command, hw] at h
        simp at h
        exact absurd h hne
    · intro hw
      simp [play_file_command, hw]
  · intro hw
    simp [play_file_command, hw]
  · simp [play_file_media_events]
  · intro cmd sb
    cases s <;> cases spawnRes <;>
      simp [play_file_op, stop, runWorker, cleanup]

/-- Witness for `play_file_extension_choice` at a non-`.wav` path. -/
theorem play_file_extension_choice_witness :
    play_file_command "b.mp3" = play_file_media_command "b.mp3" ∧
    (play_file_media_events 2 "b.mp3").length = 5 ∧
    Event.ranSync (play_file_command "b.mp3") none ∉
      (play_file_op false none "b.mp3" none).2 := by
  have h := play_file_extension_choice false none "b.mp3" none 2
  exact ⟨h.2.1 (by decide), h.2.2.1, h.2.2.2 (play_file_command "b.mp3") none⟩

/-- Claim C4: `play_announcement` runs one single composite invocation as
exactly one external process; its script plays the intro first — with the same
pre-play poll segment as `play_intro` and the same amount of post-play waiting
— and synthesizes the text only as the very last action, so terminating the
process at any earlier point (in particular a `stop()` before the intro
finishes) prevents the synthesis from ever starting. -/
theorem announcement_single_process_atomic (tr : Bool) (spawnRes : Option Nat)
    (hasTS : Nat → Bool) (posSteps : Nat) (intro_path text : String)
    (s : Option Nat) :
    spawnCount (play_announcement_op tr spawnRes intro_path text s).2 =
      (if spawnRes.isSome then 1 else 0) ∧
    (∀ cmd sb p,
      Event.spawned cmd sb p ∈ (play_announcement_op tr spawnRes intro_path text s).2 →
      cmd = announcement_command intro_path text) ∧
    announcement_script_events hasTS posSteps intro_path text =
      intro_async_script_events hasTS posSteps intro_path ++ [PsAct.speak text] ∧
    (∀ k, k < (announcement_script_events hasTS posSteps intro_path text).length →
      PsAct.speak text ∉
        (announcement_script_events hasTS posSteps intro_path text).take k) ∧
    prePlay (announcement_script_events hasTS posSteps intro_path text) =
      prePlay (intro_script_events hasTS posSteps intro_path) ∧
    sleepSum (untilClose (afterPlay
        (announcement_script_events hasTS posSteps intro_path text))) =
      sleepSum (untilClose (afterPlay
        (intro_script_events hasTS posSteps intro_path))) := by
  have hp : ∀ a ∈ pollEvents hasTS 20 0, a = PsAct.sleepMs 100 :=
    fun a ha => pollEvents_mem hasTS 20 0 a ha
  have heq : announcement_script_events hasTS posSteps intro_path text =
      intro_async_script_events hasTS posSteps intro_path ++ [PsAct.speak text] := by
    simp [announcement_script_events, intro_async_script_events, List.append_assoc]
  refine ⟨?_, ?_, heq, ?_, ?_, ?_⟩
  · cases s <;> cases spawnRes <;>
      simp [play_announcement_op, stop, runWorker, cleanup, spawnCount]
  · intro cmd sb p h
    cases s <;> cases spawnRes <;>
      simp [play_announcement_op, stop, runWorker, cleanup] at h <;>
      exact h.1
  · intro k hk h
    rw [heq] at h hk
    rw [List.take_append_eq_append_take] at h
    have hle : k ≤ (intro_async_script_events hasTS posSteps intro_path).length := by
      simp at hk
      omega
    rw [Nat.sub_eq_zero_of_le hle] at h
    simp at h
    exact absurd (List.take_subset _ _ h) (speak_not_mem_async hasTS posSteps intro_path text)
  · rw [announcement_script_events_shape, prePlay_shape _ _ _ hp,
      intro_script_events_shape, prePlay_shape _ _ _ hp]
  · rw [announcement_script_events_shape, afterPlay_shape _ _ _ hp,
      intro_script_events_shape, afterPlay_shape _ _ _ hp]
    by_cases hts : hasTS (pollEvents hasTS 20 0).length = true
    · rw [hts]
      simp only [if_true]
      rw [untilClose_append _ _ (by
        intro hmem
        exact absurd (List.eq_of_mem_replicate hmem) (by simp))]
      have e2 : List.replicate posSteps (PsAct.sleepMs 100) ++ [PsAct.close] =
          List.replicate posSteps (PsAct.sleepMs 100) ++ PsAct.close :: [] := rfl
      rw [e2, untilClose_append _ _ (by
        intro hmem
        exact absurd (List.eq_of_mem_replicate hmem) (by simp))]
    · rw [Bool.not_eq_true] at hts
      rw [hts]
      simp only [Bool.false_eq_true, if_false]
      rfl

/-- Witness for `announcement_single_process_atomic` with a successful spawn
and a player that reports duration immediately. -/
theorem announcement_single_process_atomic_witness :
    spawnCount (play_announcement_op false (some 2) "i.mp3" "T" none).2 = 1 ∧
    announcement_command "i.mp3" "T" = announcement_command "i.mp3" "T" ∧
    PsAct.speak "T" ∉
      (announcement_script_events (fun _ => true) 1 "i.mp3" "T").take 3 ∧
    prePlay (announcement_script_events (fun _ => true) 1 "i.mp3" "T") =
      prePlay (intro_script_events (fun _ => true) 1 "i.mp3") ∧
    sleepSum (untilClose (afterPlay
        (announcement_script_events (fun _ => true) 1 "i.mp3" "T"))) =
      sleepSum (untilClose (afterPlay
        (intro_script_events (fun _ => true) 1 "i.mp3"))) := by
  have h := announcement_single_process_atomic false (some 2) (fun _ => true) 1
    "i.mp3" "T" none
  exact ⟨h.1, h.2.1 (announcement_command "i.mp3" "T") none 2
      (by simp [play_announcement_op, stop, runWorker, cleanup]),
    h.2.2.2.1 3 (by decide), h.2.2.2.2.1, h.2.2.2.2.2⟩

end AudioService
